import Mathlib

/-!
Verification development for the snapshot-history analyzer
(`backupSummary.py`).

The script ingests a JSON array of backup-snapshot documents, filters and
aggregates per-snapshot metrics, groups snapshots by cluster and renders a
Markdown report.  We embed the data model and the pure transformation
pipeline shallowly in Lean:

* JSON numbers are modelled as `ℚ` (the script's arithmetic is exact
  decimal/float arithmetic on small values; rationals are the standard
  shallow embedding), epoch timestamps as `ℤ`.
* Optional JSON fields become `Option` fields; Python truthiness tests on
  numbers (`if x:`) become explicit `= 0` / `≠ 0` tests, and on option
  values explicit `none` cases.
* Python `round(x, n)` is round-half-to-even on the scaled value, embedded
  by `rhe` below.
* `f"{v}"` rendering of the displayed numbers (which are always multiples
  of `1/100` here) is embedded by `fmtQ`.
* File-system interaction in `main` is embedded by `runMain`, a function of
  the load outcome; the `startTime`/`lastUpdateTS` embedded documents are
  flattened to their single `time` member; the `%b %d` date string of
  `epoch_to_date` is presentation-only and is not referenced by any
  property proved here, so `AnalyzedSnapshot` keeps the raw epoch value
  (`epoch_time`) that the script also stores alongside it.
-/

/-- Round half to even (Python `round` tie behaviour) of a rational to an
integer: `rhe q` is the nearest integer to `q`, ties going to the even
integer. -/
def rhe (q : ℚ) : ℤ :=
  let f := ⌊q⌋
  if q - f < 1/2 then f
  else if 1/2 < q - f then f + 1
  else if f % 2 = 0 then f else f + 1

/-- Python `round(q, 1)`. -/
def round1 (q : ℚ) : ℚ := (rhe (q * 10) : ℚ) / 10

/-- Python `round(q, 2)`. -/
def round2 (q : ℚ) : ℚ := (rhe (q * 100) : ℚ) / 100

/-- Decimal rendering of `n` hundredths, matching Python float `repr` on
multiples of `1/100`: at least one fractional digit, trailing zero of the
second fractional digit dropped (`200 ↦ "2.0"`, `3550 ↦ "35.5"`,
`225 ↦ "2.25"`, `5 ↦ "0.05"`). -/
def fmtCents (n : ℤ) : String :=
  let ip := n / 100
  let fr := (n % 100).toNat
  if fr = 0 then toString ip ++ ".0"
  else if fr % 10 = 0 then toString ip ++ "." ++ toString (fr / 10)
  else if fr < 10 then toString ip ++ ".0" ++ toString fr
  else toString ip ++ "." ++ toString fr

/-- Rendering of a displayed number via an f-string.  Every number the
script displays is a `round(_, 1)` or `round(_, 2)` result, i.e. a multiple
of `1/100`, so rendering its hundredths is faithful. -/
def fmtQ (q : ℚ) : String := fmtCents ⌊q * 100⌋

/-- Unit list of `bytes_to_human_readable` (line 19 of the script). -/
def units : List String := ["B", "KB", "MB", "GB", "TB", "PB"]

/-- Loop of `bytes_to_human_readable` (lines 23-25): divide by 1024 while
the value is at least 1024 and units remain; the fuel argument is
`len(units) - 1 - unit_index`.  Returns the final value and the number of
divisions performed (the final `unit_index`). -/
def convAux : ℕ → ℚ → ℚ × ℕ
  | 0, v => (v, 0)
  | n + 1, v =>
    if 1024 ≤ v then ((convAux n (v / 1024)).1, (convAux n (v / 1024)).2 + 1)
    else (v, 0)

/-- Embedding of `bytes_to_human_readable` (lines 14-27). -/
def bytes_to_human_readable (bytes_val : Option ℚ) : Option ℚ × Option String :=
  match bytes_val with
  | none => (none, none)
  | some bv =>
    if bv = 0 then (none, none)
    else (some (round2 (convAux 5 bv).1), some (units.getD (convAux 5 bv).2 "B"))

/-- Embedding of `seconds_to_human_readable` (lines 30-46). -/
def seconds_to_human_readable (seconds : Option ℚ) : Option ℚ × Option String :=
  match seconds with
  | none => (none, none)
  | some s =>
    if s = 0 then (none, none)
    else if s < 60 then
      let v := round1 s
      (some v, some (if v = 1 then "second" else "seconds"))
    else if s < 3600 then
      let v := round1 (s / 60)
      (some v, some (if v = 1 then "minute" else "minutes"))
    else
      let v := round1 (s / 3600)
      (some v, some (if v = 1 then "hour" else "hours"))

/-- Embedding of `format_speed` (lines 60-64). -/
def format_speed (speed : Option ℚ) : Option ℚ :=
  match speed with
  | none => none
  | some v => if v = 0 then none else some (round1 v)

/-- One `ReplicaSetMetadata` record of `snapshotsMetadata`.  Absent JSON
fields are `none`; the `_id`-style fields the loop never reads are
omitted. -/
structure RSMetadata where
  state : Option String
  numNewBytes : Option ℚ
  numNewCompressedBytes : Option ℚ
  dataBlockUploadDuration : Option ℚ
  transferSpeed : Option ℚ
deriving DecidableEq

/-- One input `SnapshotDocument`.  `startTimeTime` / `lastUpdateTSTime`
flatten the script's `snapshot.get('startTime', {}).get('time')` accesses;
`docId` models the `_id` field already unwrapped to its display string
(the `$oid` unwrapping of `get_snapshot_id` is string plumbing on a field
no claim constrains); `incrementalBackup` models
`snapshot.get('incrementalBackup', False)`. -/
structure Snapshot where
  state : Option String
  clusterName : Option String
  rsId : Option String
  clustershotId : Option String
  docId : Option String
  totalDuration : Option ℚ
  startTimeTime : Option ℤ
  lastUpdateTSTime : Option ℤ
  incrementalBackup : Bool
  snapshotsMetadata : List RSMetadata
deriving DecidableEq

/-- Embedding of `get_snapshot_id` (lines 67-78). -/
def get_snapshot_id (snapshot : Snapshot) : String :=
  match snapshot.clustershotId with
  | some c => c
  | none =>
    match snapshot.docId with
    | some i => i
    | none => "N/A"

/-- Accumulator of the `for rs_metadata in snapshots_metadata` loop of
`analyze_snapshot` (lines 102-129). -/
structure AggState where
  total_new_bytes : ℚ
  total_data_upload_duration : ℚ
  total_transfer_speed_sum : ℚ
  transfer_speed_count : ℕ
  all_complete : Bool
  has_metrics : Bool

/-- Initial accumulator values (lines 102-107). -/
def initAgg : AggState :=
  { total_new_bytes := 0
    total_data_upload_duration := 0
    total_transfer_speed_sum := 0
    transfer_speed_count := 0
    all_complete := true
    has_metrics := false }

/-- Python truthiness of an optional number (`if x:` with `x` either a
number or absent). -/
def qTruthy : Option ℚ → Bool
  | none => false
  | some v => if v = 0 then false else true

/-- Python truthiness test `if speed and speed > 0:` on the optional
`transferSpeed` (line 127). -/
def speedPos : Option ℚ → Bool
  | none => false
  | some v => if v = 0 then false else if 0 < v then true else false

/-- One iteration of the metadata loop of `analyze_snapshot`
(lines 110-129): a non-`COMPLETE` entry clears `all_complete` and is
skipped; a `COMPLETE` entry contributes its metrics. -/
def stepRS (st : AggState) (rs : RSMetadata) : AggState :=
  if rs.state = some "COMPLETE" then
    let new_bytes :=
      if (rs.numNewBytes.getD 0) = 0 then rs.numNewCompressedBytes.getD 0
      else rs.numNewBytes.getD 0
    let data_upload := rs.dataBlockUploadDuration.getD 0
    { total_new_bytes :=
        st.total_new_bytes + (if new_bytes = 0 then 0 else new_bytes)
      total_data_upload_duration :=
        st.total_data_upload_duration + (if data_upload = 0 then 0 else data_upload)
      total_transfer_speed_sum :=
        st.total_transfer_speed_sum +
          (if speedPos rs.transferSpeed then rs.transferSpeed.getD 0 else 0)
      transfer_speed_count :=
        st.transfer_speed_count + (if speedPos rs.transferSpeed then 1 else 0)
      all_complete := st.all_complete
      has_metrics :=
        st.has_metrics || qTruthy rs.numNewBytes || qTruthy rs.numNewCompressedBytes ||
          qTruthy rs.dataBlockUploadDuration || qTruthy rs.transferSpeed }
  else
    { st with all_complete := false }

/-- The derived `AnalyzedSnapshot` dictionary returned by
`analyze_snapshot` (lines 148-164). -/
structure AnalyzedSnapshot where
  snapshot_id : String
  epoch_time : Option ℤ
  duration_val : Option ℚ
  duration_unit : Option String
  duration_seconds : Option ℚ
  num_new_bytes : ℚ
  num_new_bytes_val : Option ℚ
  num_new_bytes_unit : Option String
  data_upload_val : Option ℚ
  data_upload_unit : Option String
  data_upload_seconds : ℚ
  transfer_speed : Option ℚ
  is_incremental : Bool
  backup_type : String
deriving DecidableEq

/-- Embedding of `analyze_snapshot` (lines 81-164). -/
def analyze_snapshot (snapshot : Snapshot) : Option AnalyzedSnapshot :=
  if snapshot.state ≠ some "COMPLETE" then none
  else
    let total_duration := snapshot.totalDuration
    let start_time :=
      match snapshot.startTimeTime with
      | some t => some t
      | none => snapshot.lastUpdateTSTime
    if snapshot.snapshotsMetadata = [] then none
    else
      let st := snapshot.snapshotsMetadata.foldl stepRS initAgg
      let is_incremental := snapshot.incrementalBackup
      if st.all_complete = false then none
      else if st.has_metrics = false ∧ total_duration = none then none
      else
        let avg_transfer_speed :=
          if 0 < st.transfer_speed_count then
            some (st.total_transfer_speed_sum / (st.transfer_speed_count : ℚ))
          else none
        let dv := seconds_to_human_readable total_duration
        let bv := bytes_to_human_readable (some st.total_new_bytes)
        let uv := seconds_to_human_readable (some st.total_data_upload_duration)
        some
          { snapshot_id := get_snapshot_id snapshot
            epoch_time := start_time
            duration_val := dv.1
            duration_unit := dv.2
            duration_seconds := total_duration
            num_new_bytes := st.total_new_bytes
            num_new_bytes_val := bv.1
            num_new_bytes_unit := bv.2
            data_upload_val := uv.1
            data_upload_unit := uv.2
            data_upload_seconds := st.total_data_upload_duration
            transfer_speed := format_speed avg_transfer_speed
            is_incremental := is_incremental
            backup_type := if is_incremental then "Incremental" else "Full" }

/-- One table row of a cluster summary, as rendered by
`generate_cluster_summary` (lines 194-217).  The `date` column is derived
purely from `epoch_time` by `epoch_to_date` and is not constrained by any
claim, so it is omitted here; the remaining cells are rendered exactly. -/
structure Row where
  duration : String
  backup_type : String
  num_new_bytes : String
  data_upload_time : String
  transfer_speed : String
  snapshot_id : String
deriving DecidableEq

/-- Cell rendering of one analyzed snapshot (lines 195-217); a missing
value renders as `"N/A"`; a value renders as `f"{val} {unit}"` (were the
unit absent Python would print `"None"`, hence the `getD "None"`). -/
def renderRow (entry : AnalyzedSnapshot) : Row :=
  { duration :=
      match entry.duration_val with
      | some v => fmtQ v ++ " " ++ entry.duration_unit.getD "None"
      | none => "N/A"
    backup_type := entry.backup_type
    num_new_bytes :=
      match entry.num_new_bytes_val with
      | some v => fmtQ v ++ " " ++ entry.num_new_bytes_unit.getD "None"
      | none => "N/A"
    data_upload_time :=
      match entry.data_upload_val with
      | some v => fmtQ v ++ " " ++ entry.data_upload_unit.getD "None"
      | none => "N/A"
    transfer_speed :=
      match entry.transfer_speed with
      | some sp => if sp = 0 then "N/A" else fmtQ sp ++ " MB/s"
      | none => "N/A"
    snapshot_id := entry.snapshot_id }

/-- Grouping key of `main` (lines 310-317): `clusterName` if present and
truthy, else `rsId` with default `"Unknown"`. -/
def clusterKey (snapshot : Snapshot) : String :=
  match snapshot.clusterName with
  | some c => if c = "" then snapshot.rsId.getD "Unknown" else c
  | none => snapshot.rsId.getD "Unknown"

/-- The distinct grouping keys of the input (the keys of the `clusters`
defaultdict).  The subsequent report iterates keys in sorted order, so the
insertion order of `dedup` is immaterial. -/
def clusterKeys (docs : List Snapshot) : List String :=
  (docs.map clusterKey).dedup

/-- Keys in report order: `sorted(clusters.keys())` (line 328). -/
def sortedClusterKeys (docs : List Snapshot) : List String :=
  List.insertionSort (· ≤ ·) (clusterKeys docs)

/-- The documents grouped under key `k` (lines 310-317), in input order. -/
def clusterGroup (docs : List Snapshot) (k : String) : List Snapshot :=
  docs.filter (fun d => decide (clusterKey d = k))

/-- Sorting of analyzed snapshots inside a cluster section (line 181):
most recent first, missing epoch sorting as 0. -/
def sortByEpochDesc (l : List AnalyzedSnapshot) : List AnalyzedSnapshot :=
  List.insertionSort (fun a b => b.epoch_time.getD 0 ≤ a.epoch_time.getD 0) l

/-- The analyzed snapshots of the section for key `k`
(`generate_cluster_summary` lines 171-181). -/
def sectionAnalyzed (docs : List Snapshot) (k : String) : List AnalyzedSnapshot :=
  sortByEpochDesc ((clusterGroup docs k).filterMap analyze_snapshot)

/-- The table rows of the section for key `k` (lines 194-217). -/
def sectionRows (docs : List Snapshot) (k : String) : List Row :=
  (sectionAnalyzed docs k).map renderRow

/-- The per-cluster count `len(analyzed)` printed as
`Total snapshots with detailed metrics` (line 186). -/
def sectionCount (docs : List Snapshot) (k : String) : ℕ :=
  (sectionAnalyzed docs k).length

/-- All per-cluster counts, in report order. -/
def sectionCounts (docs : List Snapshot) : List ℕ :=
  (sortedClusterKeys docs).map (fun k => sectionCount docs k)

/-- The `Total clusters found` report-header count, `len(clusters)`
(line 324). -/
def headerTotalClusters (docs : List Snapshot) : ℕ :=
  (clusterKeys docs).length

/-- The `Total snapshots analyzed` report-header count, `len(snapshots)`
(line 325). -/
def headerTotalSnapshots (docs : List Snapshot) : ℕ :=
  docs.length

/-- Failure modes of loading the input file (lines 297-305). -/
inductive LoadError where
  | fileNotFound : LoadError
  | jsonDecode : String → LoadError
deriving DecidableEq

/-- Observable outcome of one run of `main`: process exit status, lines
printed, and the output file written (`none` when no write happened). -/
structure RunResult where
  exitCode : ℕ
  printed : List String
  written : Option String
deriving DecidableEq

/-- Embedding of the `main` control flow around loading and writing
(lines 296-305 and 358-371), as a function of the load outcome: a load
error prints a message naming the input path and exits with status 1
before any report is constructed or written; a successful load builds the
report and writes it to the output path. -/
def runMain (inputFile outputFile : String) (load : Except LoadError (List Snapshot)) :
    RunResult :=
  match load with
  | Except.error LoadError.fileNotFound =>
    { exitCode := 1
      printed := ["Error: File \x27" ++ inputFile ++ "\x27 not found."]
      written := none }
  | Except.error (LoadError.jsonDecode e) =>
    { exitCode := 1
      printed := ["Error: Invalid JSON in \x27" ++ inputFile ++ "\x27: " ++ e]
      written := none }
  | Except.ok snapshots =>
    { exitCode := 0
      printed :=
        ["Analysis complete!",
         "Input file:  " ++ inputFile,
         "Output file: " ++ outputFile,
         "Clusters analyzed: " ++ toString (headerTotalClusters snapshots),
         "Total snapshots: " ++ toString (headerTotalSnapshots snapshots)]
      written := some outputFile }

/-- Rank of a unit string in the unit list, for stating monotonicity of
the byte conversion. -/
def unitRank (u : String) : ℕ := units.indexOf u

/-- Specification-side definition (spec 4.2): the strictly positive
`transferSpeed` values of the metadata entries, to be compared with what
the analyzer's loop accumulates. -/
def posSpeeds (l : List RSMetadata) : List ℚ :=
  l.filterMap (fun rs =>
    match rs.transferSpeed with
    | some v => if 0 < v then some v else none
    | none => none)

/-- Eligibility of a document, as a Boolean: `analyze_snapshot` returns a
value. -/
def elig (d : Snapshot) : Bool := (analyze_snapshot d).isSome

/-- The single metadata entry of the spec scenario (claim C2). -/
def scenarioMeta : RSMetadata :=
  { state := some "COMPLETE"
    numNewBytes := some 2147483648
    numNewCompressedBytes := none
    dataBlockUploadDuration := some 60
    transferSpeed := some 35.5 }

/-- The single document of the spec scenario (claim C2). -/
def scenarioSnap : Snapshot :=
  { state := some "COMPLETE"
    clusterName := some "A"
    rsId := none
    clustershotId := none
    docId := none
    totalDuration := some 120
    startTimeTime := some 1700000000
    lastUpdateTSTime := none
    incrementalBackup := false
    snapshotsMetadata := [scenarioMeta] }

/-- The analysis of the scenario document, spelled out. -/
def scenarioAnalyzed : AnalyzedSnapshot :=
  { snapshot_id := "N/A"
    epoch_time := some 1700000000
    duration_val := some 2
    duration_unit := some "minutes"
    duration_seconds := some 120
    num_new_bytes := 2147483648
    num_new_bytes_val := some 2
    num_new_bytes_unit := some "GB"
    data_upload_val := some 1
    data_upload_unit := some "minute"
    data_upload_seconds := 60
    transfer_speed := some 35.5
    is_incremental := false
    backup_type := "Full" }

/-- The rendered row of the scenario document, spelled out. -/
def scenarioRow : Row :=
  { duration := "2.0 minutes"
    backup_type := "Full"
    num_new_bytes := "2.0 GB"
    data_upload_time := "1.0 minute"
    transfer_speed := "35.5 MB/s"
    snapshot_id := "N/A" }

/-- A document with `state: "FAILED"` (claims C1 and C7). -/
def failedSnap : Snapshot :=
  { state := some "FAILED"
    clusterName := some "A"
    rsId := none
    clustershotId := none
    docId := none
    totalDuration := some 300
    startTimeTime := some 1700000000
    lastUpdateTSTime := none
    incrementalBackup := false
    snapshotsMetadata := [] }

/-- A metadata entry with valid metrics (claim C3 witness). -/
def goodMeta : RSMetadata :=
  { state := some "COMPLETE"
    numNewBytes := some 1000
    numNewCompressedBytes := none
    dataBlockUploadDuration := some 10
    transferSpeed := some 20 }

/-- A metadata entry that is not complete (claim C3 witness). -/
def badMeta : RSMetadata :=
  { state := some "FAILED"
    numNewBytes := none
    numNewCompressedBytes := none
    dataBlockUploadDuration := none
    transferSpeed := none }

/-- A complete snapshot with one complete and one failed member
(claim C3 witness). -/
def mixedSnap : Snapshot :=
  { state := some "COMPLETE"
    clusterName := some "B"
    rsId := none
    clustershotId := none
    docId := none
    totalDuration := some 100
    startTimeTime := some 1700000500
    lastUpdateTSTime := none
    incrementalBackup := false
    snapshotsMetadata := [goodMeta, badMeta] }

/-- A snapshot whose `clusterName` is present but empty (claim C9
witness). -/
def emptyNameSnap : Snapshot :=
  { state := some "COMPLETE"
    clusterName := some ""
    rsId := none
    clustershotId := none
    docId := none
    totalDuration := some 100
    startTimeTime := none
    lastUpdateTSTime := none
    incrementalBackup := false
    snapshotsMetadata := [] }

/-- Value a metadata entry contributes to the speed accumulation: its
`transferSpeed` when the entry is `COMPLETE` and the speed is strictly
positive, nothing otherwise. -/
def speedEntry (rs : RSMetadata) : Option ℚ :=
  if rs.state = some "COMPLETE" then
    match rs.transferSpeed with
    | some v => if 0 < v then some v else none
    | none => none
  else none

/-- The strictly positive speeds accumulated by the loop: only entries in
state `COMPLETE` reach the speed accumulation. -/
def posSpeedsC (l : List RSMetadata) : List ℚ :=
  l.filterMap speedEntry

/-! ## Helper lemmas: rounding -/

lemma rhe_intCast (z : ℤ) : rhe ((z : ℚ)) = z := by
  unfold rhe
  rw [Int.floor_intCast]
  norm_num

lemma round1_eq_int (q : ℚ) (z : ℤ) (h : q * 10 = (z : ℚ)) : round1 q = (z : ℚ) / 10 := by
  unfold round1
  rw [h, rhe_intCast]

lemma round2_eq_int (q : ℚ) (z : ℤ) (h : q * 100 = (z : ℚ)) : round2 q = (z : ℚ) / 100 := by
  unfold round2
  rw [h, rhe_intCast]

lemma fmtQ_eq_cents (q : ℚ) (z : ℤ) (h : q * 100 = (z : ℚ)) : fmtQ q = fmtCents z := by
  unfold fmtQ
  rw [h, Int.floor_intCast]

lemma floor_le_rhe (q : ℚ) : ⌊q⌋ ≤ rhe q := by
  simp only [rhe]
  split_ifs <;> omega

lemma rhe_le_floor_add_one (q : ℚ) : rhe q ≤ ⌊q⌋ + 1 := by
  simp only [rhe]
  split_ifs <;> omega

lemma rhe_mono {a b : ℚ} (h : a ≤ b) : rhe a ≤ rhe b := by
  have hf : ⌊a⌋ ≤ ⌊b⌋ := Int.floor_le_floor h
  rcases lt_or_eq_of_le hf with hlt | heq
  · calc rhe a ≤ ⌊a⌋ + 1 := rhe_le_floor_add_one a
    _ ≤ ⌊b⌋ := by omega
    _ ≤ rhe b := floor_le_rhe b
  · simp only [rhe]
    rw [← heq]
    have hr : a - ⌊a⌋ ≤ b - ⌊a⌋ := by linarith
    split_ifs <;> first | omega | linarith

lemma round2_mono {a b : ℚ} (h : a ≤ b) : round2 a ≤ round2 b := by
  unfold round2
  have : rhe (a * 100) ≤ rhe (b * 100) := rhe_mono (by linarith)
  have hc : ((rhe (a * 100) : ℤ) : ℚ) ≤ ((rhe (b * 100) : ℤ) : ℚ) := by exact_mod_cast this
  linarith

/-! ## Helper lemmas: the byte-conversion loop -/

lemma convAux_snd_le (n : ℕ) : ∀ v : ℚ, (convAux n v).2 ≤ n := by
  induction n with
  | zero => intro v; simp [convAux]
  | succ n ih =>
    intro v
    simp only [convAux]
    split_ifs
    · simpa using Nat.succ_le_succ (ih (v / 1024))
    · simp

lemma convAux_mono (n : ℕ) :
    ∀ v1 v2 : ℚ, v1 ≤ v2 →
      (convAux n v1).2 < (convAux n v2).2 ∨
        ((convAux n v1).2 = (convAux n v2).2 ∧ (convAux n v1).1 ≤ (convAux n v2).1) := by
  induction n with
  | zero => intro v1 v2 h; right; exact ⟨rfl, h⟩
  | succ n ih =>
    intro v1 v2 h
    by_cases h1 : 1024 ≤ v1
    · have h2 : 1024 ≤ v2 := le_trans h1 h
      simp only [convAux, if_pos h1, if_pos h2]
      have hd : v1 / 1024 ≤ v2 / 1024 := by linarith
      rcases ih (v1 / 1024) (v2 / 1024) hd with hlt | ⟨he, hv⟩
      · left; omega
      · right; exact ⟨by omega, hv⟩
    · by_cases h2 : 1024 ≤ v2
      · simp only [convAux, if_neg h1, if_pos h2]
        left
        exact Nat.succ_pos _
      · simp only [convAux, if_neg h1, if_neg h2]
        simp [h]


lemma unitRank_getD : ∀ i < 6, unitRank (units.getD i "B") = i := by decide

/-! ## Helper lemmas: the metadata fold of the analyzer -/

lemma speedEntry_complete (rs : RSMetadata) (hc : rs.state = some "COMPLETE") :
    speedEntry rs =
      if speedPos rs.transferSpeed = true then some (rs.transferSpeed.getD 0) else none := by
  unfold speedEntry
  rw [if_pos hc]
  cases ho : rs.transferSpeed with
  | none => simp [speedPos]
  | some v =>
    by_cases hv0 : v = 0
    · subst hv0
      simp [speedPos]
    · by_cases hvp : 0 < v
      · simp [speedPos, hv0, hvp]
      · simp [speedPos, hv0, hvp]

lemma speedEntry_not_complete (rs : RSMetadata) (hc : ¬ rs.state = some "COMPLETE") :
    speedEntry rs = none := by
  unfold speedEntry
  rw [if_neg hc]

lemma foldl_all_complete (l : List RSMetadata) :
    ∀ st : AggState,
      ((l.foldl stepRS st).all_complete = true ↔
        (st.all_complete = true ∧ ∀ rs ∈ l, rs.state = some "COMPLETE")) := by
  induction l with
  | nil => intro st; simp
  | cons rs t ih =>
    intro st
    by_cases hc : rs.state = some "COMPLETE"
    · simp only [List.foldl_cons, stepRS, if_pos hc, ih]
      constructor
      · rintro ⟨h1, h2⟩
        refine ⟨h1, ?_⟩
        intro x hx
        rcases List.mem_cons.mp hx with h | h
        · rw [h]; exact hc
        · exact h2 x h
      · rintro ⟨h1, h2⟩
        exact ⟨h1, fun x hx => h2 x (List.mem_cons_of_mem rs hx)⟩
    · simp only [List.foldl_cons, stepRS, if_neg hc, ih]
      constructor
      · rintro ⟨h1, _⟩
        exact absurd h1 (by simp)
      · rintro ⟨_, h2⟩
        exact absurd (h2 rs (List.mem_cons_self rs t)) hc

lemma foldl_speed_sum (l : List RSMetadata) :
    ∀ st : AggState,
      (l.foldl stepRS st).total_transfer_speed_sum =
        st.total_transfer_speed_sum + (posSpeedsC l).sum := by
  induction l with
  | nil => intro st; simp [posSpeedsC]
  | cons rs t ih =>
    intro st
    rw [List.foldl_cons, ih]
    by_cases hc : rs.state = some "COMPLETE"
    · by_cases hp : speedPos rs.transferSpeed = true
      · simp only [posSpeedsC, List.filterMap_cons, speedEntry_complete rs hc, if_pos hp]
        simp only [stepRS, if_pos hc, hp, if_true, List.sum_cons]
        ring
      · simp only [posSpeedsC, List.filterMap_cons, speedEntry_complete rs hc, if_neg hp]
        simp only [stepRS, if_pos hc, hp, if_false]
        simp
    · simp only [posSpeedsC, List.filterMap_cons, speedEntry_not_complete rs hc]
      simp only [stepRS, if_neg hc]

lemma foldl_speed_count (l : List RSMetadata) :
    ∀ st : AggState,
      (l.foldl stepRS st).transfer_speed_count =
        st.transfer_speed_count + (posSpeedsC l).length := by
  induction l with
  | nil => intro st; simp [posSpeedsC]
  | cons rs t ih =>
    intro st
    rw [List.foldl_cons, ih]
    by_cases hc : rs.state = some "COMPLETE"
    · by_cases hp : speedPos rs.transferSpeed = true
      · simp only [posSpeedsC, List.filterMap_cons, speedEntry_complete rs hc, if_pos hp]
        simp only [stepRS, if_pos hc, hp, if_true, List.length_cons]
        omega
      · simp only [posSpeedsC, List.filterMap_cons, speedEntry_complete rs hc, if_neg hp]
        simp only [stepRS, if_pos hc, hp, if_false]
        simp
    · simp only [posSpeedsC, List.filterMap_cons, speedEntry_not_complete rs hc]
      simp only [stepRS, if_neg hc]

lemma posSpeedsC_eq_posSpeeds (l : List RSMetadata)
    (h : ∀ rs ∈ l, rs.state = some "COMPLETE") :
    posSpeedsC l = posSpeeds l := by
  induction l with
  | nil => rfl
  | cons rs t ih =>
    have hc : rs.state = some "COMPLETE" := h rs (List.mem_cons_self rs t)
    have ht : posSpeedsC t = posSpeeds t :=
      ih (fun x hx => h x (List.mem_cons_of_mem rs hx))
    simp only [posSpeedsC, posSpeeds, List.filterMap_cons] at *
    rw [ht]
    unfold speedEntry
    rw [if_pos hc]

/-! ## Helper lemmas: grouping and counting -/

lemma length_filterMap_eq_countP {α β : Type} (f : α → Option β) (l : List α) :
    (l.filterMap f).length = l.countP (fun a => (f a).isSome) := by
  induction l with
  | nil => simp
  | cons a t ih =>
    cases h : f a with
    | none => simp [List.filterMap_cons, List.countP_cons, h, ih]
    | some b => simp [List.filterMap_cons, List.countP_cons, h, ih]

lemma sum_map_add {α : Type} (l : List α) (f g : α → ℕ) :
    (l.map (fun x => f x + g x)).sum = (l.map f).sum + (l.map g).sum := by
  induction l with
  | nil => simp
  | cons a t ih => simp [ih]; omega

lemma sum_map_indicator_of_not_mem (ks : List String) (x : String) (c : ℕ)
    (hx : x ∉ ks) :
    (ks.map (fun k => if x = k then c else 0)).sum = 0 := by
  induction ks with
  | nil => simp
  | cons k t ih =>
    have hxk : x ≠ k := fun h => hx (h ▸ List.mem_cons_self k t)
    have hxt : x ∉ t := fun h => hx (List.mem_cons_of_mem k h)
    simp [hxk, ih hxt]

lemma sum_map_indicator (ks : List String) (x : String) (c : ℕ)
    (hN : ks.Nodup) (hx : x ∈ ks) :
    (ks.map (fun k => if x = k then c else 0)).sum = c := by
  induction ks with
  | nil => exact absurd hx (List.not_mem_nil x)
  | cons k t ih =>
    rcases List.mem_cons.mp hx with h | h
    · subst h
      have hxt : x ∉ t := (List.nodup_cons.mp hN).1
      simp [sum_map_indicator_of_not_mem t x c hxt]
    · have hxk : x ≠ k := by
        intro he
        exact (List.nodup_cons.mp hN).1 (he ▸ h)
      simp [hxk, ih (List.nodup_cons.mp hN).2 h]

lemma sum_fiber_counts (docs : List Snapshot) (ks : List String)
    (hN : ks.Nodup) (hC : ∀ d ∈ docs, clusterKey d ∈ ks) :
    (ks.map (fun k => docs.countP (fun d => elig d && decide (clusterKey d = k)))).sum =
      docs.countP elig := by
  induction docs with
  | nil => simp
  | cons d t ih =>
    have hdt : ∀ x ∈ t, clusterKey x ∈ ks := fun x hx => hC x (List.mem_cons_of_mem d hx)
    have hstep : ∀ k : String,
        (d :: t).countP (fun x => elig x && decide (clusterKey x = k)) =
          t.countP (fun x => elig x && decide (clusterKey x = k)) +
            (if clusterKey d = k then (if elig d = true then 1 else 0) else 0) := by
      intro k
      rw [List.countP_cons]
      by_cases he : elig d = true
      · by_cases hk : clusterKey d = k
        · simp [he, hk]
        · simp [he, hk]
      · by_cases hk : clusterKey d = k
        · simp [he, hk]
        · simp [he, hk]
    calc (ks.map (fun k => (d :: t).countP (fun x => elig x && decide (clusterKey x = k)))).sum
        = (ks.map (fun k =>
            t.countP (fun x => elig x && decide (clusterKey x = k)) +
              (if clusterKey d = k then (if elig d = true then 1 else 0) else 0))).sum := by
          congr 1
          exact List.map_congr_left (fun k _ => hstep k)
      _ = (ks.map (fun k => t.countP (fun x => elig x && decide (clusterKey x = k)))).sum +
            (ks.map (fun k => if clusterKey d = k then (if elig d = true then 1 else 0) else 0)).sum := by
          exact sum_map_add ks _ _
      _ = t.countP elig + (if elig d = true then 1 else 0) := by
          rw [ih hdt, sum_map_indicator ks (clusterKey d) _ hN (hC d (List.mem_cons_self d t))]
      _ = (d :: t).countP elig := by
          rw [List.countP_cons]

lemma sectionCount_eq_countP (docs : List Snapshot) (k : String) :
    sectionCount docs k = docs.countP (fun d => elig d && decide (clusterKey d = k)) := by
  unfold sectionCount sectionAnalyzed sortByEpochDesc clusterGroup
  rw [(List.perm_insertionSort _ _).length_eq]
  rw [length_filterMap_eq_countP]
  rw [List.countP_filter]
  simp only [elig]

/-! ## Claim theorems -/

/-- C3: a `COMPLETE` snapshot with non-empty `snapshotsMetadata` is
rejected wholesale by `analyze_snapshot` (returns `none`) as soon as any
`ReplicaSetMetadata` entry has a state other than `"COMPLETE"`, even when
other entries carry valid metrics: all-or-nothing aggregation. -/
theorem claim_C3 (s : Snapshot) (rs : RSMetadata)
    (h1 : s.state = some "COMPLETE") (h2 : s.snapshotsMetadata ≠ [])
    (h3 : rs ∈ s.snapshotsMetadata) (h4 : rs.state ≠ some "COMPLETE") :
    analyze_snapshot s = none := by
  have hac : (s.snapshotsMetadata.foldl stepRS initAgg).all_complete = false := by
    cases hb : (s.snapshotsMetadata.foldl stepRS initAgg).all_complete
    · rfl
    · exfalso
      rcases (foldl_all_complete s.snapshotsMetadata initAgg).mp hb with ⟨_, hall⟩
      exact h4 (hall rs h3)
  simp only [analyze_snapshot]
  rw [if_neg (by simp [h1])]
  rw [if_neg h2]
  rw [if_pos hac]

/-- Witness for C3: the concrete snapshot `mixedSnap`, one complete member
with metrics and one failed member, analyzes to `none`. -/
theorem claim_C3_witness : analyze_snapshot mixedSnap = none :=
  claim_C3 mixedSnap badMeta rfl (by simp [mixedSnap]) (by simp [mixedSnap])
    (by simp [badMeta])

/-- C9: a document whose `clusterName` is present but empty (falsy) is not
grouped under it; the grouping key falls through to `rsId`, or to
`"Unknown"` when `rsId` is absent, because `main` tests truthiness of the
looked-up value rather than field presence. -/
theorem claim_C9 (s : Snapshot) (h : s.clusterName = some "") :
    clusterKey s = s.rsId.getD "Unknown" := by
  unfold clusterKey
  rw [h]
  simp

/-- Witness for C9: the concrete document `emptyNameSnap` with
`clusterName: ""` and no `rsId` is grouped under `"Unknown"`. -/
theorem claim_C9_witness : clusterKey emptyNameSnap = "Unknown" := by
  rw [claim_C9 emptyNameSnap rfl]
  rfl

/-- C8: when loading the input fails (missing file or malformed JSON), the
run prints a single error message that names the offending path, exits
with status 1, and writes no output file. -/
theorem claim_C8 (inputFile outputFile : String) (e : LoadError) :
    (runMain inputFile outputFile (Except.error e)).exitCode = 1 ∧
    (runMain inputFile outputFile (Except.error e)).written = none ∧
    ∃ msg pre post,
      (runMain inputFile outputFile (Except.error e)).printed = [msg] ∧
      msg = pre ++ inputFile ++ post := by
  cases e with
  | fileNotFound =>
    exact ⟨rfl, rfl, "Error: File \x27" ++ inputFile ++ "\x27 not found.",
      "Error: File \x27", "\x27 not found.", rfl, rfl⟩
  | jsonDecode m =>
    refine ⟨rfl, rfl, "Error: Invalid JSON in \x27" ++ inputFile ++ "\x27: " ++ m,
      "Error: Invalid JSON in \x27", "\x27: " ++ m, rfl, ?_⟩
    exact String.append_assoc ("Error: Invalid JSON in \x27" ++ inputFile) "\x27: " m

/-- C5: every distinct grouping key yields exactly one cluster section,
sections are ordered by ascending lexical key order, and no document
belongs to two cluster groups. -/
theorem claim_C5 (docs : List Snapshot) :
    (sortedClusterKeys docs).Nodup ∧
    (sortedClusterKeys docs).Sorted (· ≤ ·) ∧
    (∀ k, k ∈ sortedClusterKeys docs ↔ ∃ d ∈ docs, clusterKey d = k) ∧
    (∀ d k1 k2, d ∈ clusterGroup docs k1 → d ∈ clusterGroup docs k2 → k1 = k2) := by
  refine ⟨?_, ?_, ?_, ?_⟩
  · exact ((List.perm_insertionSort _ _).nodup_iff).mpr (List.nodup_dedup _)
  · exact List.sorted_insertionSort _ _
  · intro k
    unfold sortedClusterKeys clusterKeys
    rw [(List.perm_insertionSort _ _).mem_iff, List.mem_dedup, List.mem_map]
  · intro d k1 k2 hk1 hk2
    unfold clusterGroup at hk1 hk2
    have e1 : clusterKey d = k1 := of_decide_eq_true (List.mem_filter.mp hk1).2
    have e2 : clusterKey d = k2 := of_decide_eq_true (List.mem_filter.mp hk2).2
    rw [← e1, ← e2]

/-- Witness for C5: key `"A"` of the concrete one-document input appears
among the report keys. -/
theorem claim_C5_witness : "A" ∈ sortedClusterKeys [scenarioSnap] :=
  ((claim_C5 [scenarioSnap]).2.2.1 "A").mpr
    ⟨scenarioSnap, List.mem_singleton_self scenarioSnap, by simp [clusterKey, scenarioSnap]⟩

/-- C7: the per-cluster analyzed counts sum to at most the number of input
documents, with equality exactly when every input document is eligible
(analyzes to a value). -/
theorem claim_C7 (docs : List Snapshot) :
    (sectionCounts docs).sum ≤ headerTotalSnapshots docs ∧
    ((sectionCounts docs).sum = headerTotalSnapshots docs ↔
      ∀ d ∈ docs, (analyze_snapshot d).isSome = true) := by
  have hsum : (sectionCounts docs).sum = docs.countP elig := by
    unfold sectionCounts sortedClusterKeys
    rw [((List.perm_insertionSort (· ≤ ·) (clusterKeys docs)).map
      (fun k => sectionCount docs k)).sum_eq]
    rw [List.map_congr_left (fun k _ => sectionCount_eq_countP docs k)]
    exact sum_fiber_counts docs (clusterKeys docs) (List.nodup_dedup _)
      (fun d hd => List.mem_dedup.mpr (List.mem_map_of_mem clusterKey hd))
  constructor
  · rw [hsum]
    exact List.countP_le_length elig
  · rw [hsum]
    unfold headerTotalSnapshots
    rw [List.countP_eq_length]
    unfold elig
    exact Iff.rfl

/-- Witness for C7: on the concrete input `[failedSnap]` the bound holds
(the section counts sum to 0, below the single input document). -/
theorem claim_C7_witness :
    (sectionCounts [failedSnap]).sum ≤ headerTotalSnapshots [failedSnap] :=
  (claim_C7 [failedSnap]).1

/-- C1 (counterexample to the claim as stated): a single document in state
`"FAILED"` indeed produces no `AnalyzedSnapshot` and no table row, but it
is NOT excluded from the report-header totals: the header still reports 1
snapshot analyzed and 1 cluster found. -/
theorem claim_C1_counterexample :
    analyze_snapshot failedSnap = none ∧
    sectionRows [failedSnap] "A" = [] ∧
    headerTotalSnapshots [failedSnap] ≠ 0 ∧
    headerTotalSnapshots [failedSnap] = 1 ∧
    headerTotalClusters [failedSnap] = 1 := by
  have hnone : analyze_snapshot failedSnap = none := by
    simp only [analyze_snapshot]
    rw [if_pos (by simp [failedSnap])]
  refine ⟨hnone, ?_, by simp [headerTotalSnapshots], rfl, ?_⟩
  · unfold sectionRows sectionAnalyzed clusterGroup sortByEpochDesc
    simp [hnone]
  · unfold headerTotalClusters clusterKeys
    simp [clusterKey, failedSnap]

/-- C1 (amended): a document whose state is not `"COMPLETE"` yields no
`AnalyzedSnapshot`, contributes no table row to any cluster section and is
excluded from every per-cluster snapshot count; however the report-header
total `Total snapshots analyzed` counts all input documents, including
this one. -/
theorem claim_C1_amended (docs : List Snapshot) (s : Snapshot)
    (h : s.state ≠ some "COMPLETE") :
    analyze_snapshot s = none ∧
    (∀ k, sectionRows (docs ++ [s]) k = sectionRows docs k) ∧
    (∀ k, sectionCount (docs ++ [s]) k = sectionCount docs k) ∧
    headerTotalSnapshots (docs ++ [s]) = headerTotalSnapshots docs + 1 := by
  have hnone : analyze_snapshot s = none := by
    simp only [analyze_snapshot]
    rw [if_pos h]
  have hgroup : ∀ k, (clusterGroup (docs ++ [s]) k).filterMap analyze_snapshot
      = (clusterGroup docs k).filterMap analyze_snapshot := by
    intro k
    unfold clusterGroup
    rw [List.filter_append, List.filterMap_append]
    have hsingle : (List.filter (fun d => decide (clusterKey d = k)) [s]).filterMap
        analyze_snapshot = [] := by
      by_cases hk : clusterKey s = k
      · simp [List.filter, hk, hnone]
      · simp [List.filter, hk]
    rw [hsingle, List.append_nil]
  refine ⟨hnone, ?_, ?_, ?_⟩
  · intro k
    unfold sectionRows sectionAnalyzed
    rw [hgroup k]
  · intro k
    unfold sectionCount sectionAnalyzed
    rw [hgroup k]
  · unfold headerTotalSnapshots
    simp

/-- Witness for the amended C1: concrete instance at the empty base input
and the concrete failed document. -/
theorem claim_C1_witness :
    analyze_snapshot failedSnap = none ∧
    (∀ k, sectionRows ([] ++ [failedSnap]) k = sectionRows [] k) ∧
    (∀ k, sectionCount ([] ++ [failedSnap]) k = sectionCount [] k) ∧
    headerTotalSnapshots ([] ++ [failedSnap]) = headerTotalSnapshots [] + 1 :=
  claim_C1_amended [] failedSnap (by simp [failedSnap])

/-- C10: for every positive duration the rendered unit is singular exactly
when the rounded converted value equals 1, plural otherwise; in
particular 60 seconds renders as value 1 with unit `"minute"`, not
`"minutes"`. -/
theorem claim_C10 :
    (∀ s : ℚ, 0 < s →
      ∃ v u, seconds_to_human_readable (some s) = (some v, some u) ∧
        (u ∈ (["second", "minute", "hour"] : List String) ↔ v = 1) ∧
        (u ∈ (["seconds", "minutes", "hours"] : List String) ↔ v ≠ 1)) ∧
    seconds_to_human_readable (some 60) = (some 1, some "minute") := by
  constructor
  · intro s hs
    have hs0 : ¬ s = 0 := by positivity
    simp only [seconds_to_human_readable, if_neg hs0]
    by_cases h60 : s < 60
    · rw [if_pos h60]
      refine ⟨round1 s, if round1 s = 1 then "second" else "seconds", rfl, ?_, ?_⟩ <;>
        by_cases hv : round1 s = 1 <;> simp [hv]
    · rw [if_neg h60]
      by_cases h3600 : s < 3600
      · rw [if_pos h3600]
        refine ⟨round1 (s / 60), if round1 (s / 60) = 1 then "minute" else "minutes",
          rfl, ?_, ?_⟩ <;> by_cases hv : round1 (s / 60) = 1 <;> simp [hv]
      · rw [if_neg h3600]
        refine ⟨round1 (s / 3600), if round1 (s / 3600) = 1 then "hour" else "hours",
          rfl, ?_, ?_⟩ <;> by_cases hv : round1 (s / 3600) = 1 <;> simp [hv]
  · have hr : round1 (1 : ℚ) = 1 := by
      rw [round1_eq_int 1 10 (by norm_num)]
      norm_num
    norm_num [seconds_to_human_readable, hr]

/-- Witness for C10: instance at the concrete positive duration 45. -/
theorem claim_C10_witness :
    ∃ v u, seconds_to_human_readable (some 45) = (some v, some u) ∧
      (u ∈ (["second", "minute", "hour"] : List String) ↔ v = 1) ∧
      (u ∈ (["seconds", "minutes", "hours"] : List String) ↔ v ≠ 1) :=
  claim_C10.1 45 (by norm_num)

/-- C6: the byte-unit conversion divides by 1024 until the value drops
below 1024 or the unit list `B, KB, MB, GB, TB, PB` is exhausted and is
monotone: a larger byte count never yields a strictly smaller
(unit, value) pair, units ordered by their rank in the list; and
1073741824 bytes convert to `(1.0, "GB")`. -/
theorem claim_C6 :
    (∀ b1 b2 : ℕ, 0 < b1 → b1 ≤ b2 →
      ∃ v1 u1 v2 u2,
        bytes_to_human_readable (some (b1 : ℚ)) = (some v1, some u1) ∧
        bytes_to_human_readable (some (b2 : ℚ)) = (some v2, some u2) ∧
        (unitRank u1 < unitRank u2 ∨ (u1 = u2 ∧ v1 ≤ v2))) ∧
    bytes_to_human_readable (some 1073741824) = (some 1, some "GB") := by
  constructor
  · intro b1 b2 hb1 hb12
    have hq1 : (0 : ℚ) < (b1 : ℚ) := by exact_mod_cast hb1
    have h1 : ¬ ((b1 : ℚ) = 0) := by positivity
    have h2 : ¬ ((b2 : ℚ) = 0) := by
      have : (0 : ℚ) < (b2 : ℚ) := lt_of_lt_of_le hq1 (by exact_mod_cast hb12)
      positivity
    simp only [bytes_to_human_readable, if_neg h1, if_neg h2]
    refine ⟨_, _, _, _, rfl, rfl, ?_⟩
    have hle1 : (convAux 5 ((b1 : ℚ))).2 ≤ 5 := convAux_snd_le 5 _
    have hle2 : (convAux 5 ((b2 : ℚ))).2 ≤ 5 := convAux_snd_le 5 _
    rcases convAux_mono 5 (b1 : ℚ) (b2 : ℚ) (by exact_mod_cast hb12) with hlt | ⟨heq, hv⟩
    · left
      rw [unitRank_getD _ (by omega), unitRank_getD _ (by omega)]
      exact hlt
    · right
      exact ⟨by rw [heq], round2_mono hv⟩
  · rw [bytes_to_human_readable]
    norm_num [convAux, units]
    rw [round2_eq_int _ 100 (by norm_num)]
    norm_num

/-- Witness for C6: instance of the monotonicity statement at the concrete
byte counts 500 and 2048. -/
theorem claim_C6_witness :
    ∃ v1 u1 v2 u2,
      bytes_to_human_readable (some ((500 : ℕ) : ℚ)) = (some v1, some u1) ∧
      bytes_to_human_readable (some ((2048 : ℕ) : ℚ)) = (some v2, some u2) ∧
      (unitRank u1 < unitRank u2 ∨ (u1 = u2 ∧ v1 ≤ v2)) :=
  claim_C6.1 500 2048 (by norm_num) (by norm_num)

/-! ## Concrete evaluation of the C2 scenario -/

lemma fmtQ_two : fmtQ 2 = "2.0" := by
  rw [fmtQ_eq_cents 2 200 (by norm_num)]
  rfl

lemma fmtQ_one : fmtQ 1 = "1.0" := by
  rw [fmtQ_eq_cents 1 100 (by norm_num)]
  rfl

lemma fmtQ_speed : fmtQ (35.5 : ℚ) = "35.5" := by
  rw [fmtQ_eq_cents (35.5 : ℚ) 3550 (by norm_num)]
  rfl

lemma round1_speed : round1 ((71 : ℚ) / 2) = 71 / 2 := by
  rw [round1_eq_int ((71 : ℚ) / 2) 355 (by norm_num)]
  norm_num

lemma fmtQ_speed2 : fmtQ ((71 : ℚ) / 2) = "35.5" := by
  rw [fmtQ_eq_cents ((71 : ℚ) / 2) 3550 (by norm_num)]
  rfl

lemma sth_120 : seconds_to_human_readable (some 120) = (some 2, some "minutes") := by
  have hr : round1 (2 : ℚ) = 2 := by
    rw [round1_eq_int 2 20 (by norm_num)]
    norm_num
  norm_num [seconds_to_human_readable, hr]

lemma sth_60 : seconds_to_human_readable (some 60) = (some 1, some "minute") := by
  have hr : round1 (1 : ℚ) = 1 := by
    rw [round1_eq_int 1 10 (by norm_num)]
    norm_num
  norm_num [seconds_to_human_readable, hr]

lemma bth_2g : bytes_to_human_readable (some 2147483648) = (some 2, some "GB") := by
  rw [bytes_to_human_readable]
  norm_num [convAux, units]
  rw [round2_eq_int _ 200 (by norm_num)]
  norm_num

lemma scenario_fold :
    [scenarioMeta].foldl stepRS initAgg =
      { total_new_bytes := 2147483648
        total_data_upload_duration := 60
        total_transfer_speed_sum := 35.5
        transfer_speed_count := 1
        all_complete := true
        has_metrics := true } := by
  simp only [List.foldl_cons, List.foldl_nil, stepRS, scenarioMeta, initAgg]
  norm_num [speedPos, qTruthy]

lemma scenario_analyze : analyze_snapshot scenarioSnap = some scenarioAnalyzed := by
  simp only [analyze_snapshot, scenarioSnap]
  rw [if_neg (by simp)]
  rw [if_neg (by simp)]
  rw [scenario_fold]
  rw [if_neg (by simp)]
  rw [if_neg (by simp)]
  norm_num [sth_120, sth_60, bth_2g, get_snapshot_id, format_speed, round1_speed,
    scenarioAnalyzed, scenarioSnap]

lemma scenario_render : renderRow scenarioAnalyzed = scenarioRow := by
  simp only [renderRow, scenarioAnalyzed, scenarioRow]
  norm_num [fmtQ_two, fmtQ_one, fmtQ_speed, fmtQ_speed2]
  exact ⟨rfl, rfl, rfl, rfl⟩

lemma scenario_keys : sortedClusterKeys [scenarioSnap] = ["A"] := by
  have hd : clusterKeys [scenarioSnap] = ["A"] := by
    simp [clusterKeys, clusterKey, scenarioSnap]
  unfold sortedClusterKeys
  rw [hd]
  rfl

lemma scenario_rows : sectionRows [scenarioSnap] "A" = [scenarioRow] := by
  have hkey : clusterKey scenarioSnap = "A" := by simp [clusterKey, scenarioSnap]
  unfold sectionRows sectionAnalyzed clusterGroup sortByEpochDesc
  rw [List.filter_singleton]
  have hcond : decide (clusterKey scenarioSnap = "A") = true := by simp [hkey]
  rw [hcond, cond_true]
  have hfm : List.filterMap analyze_snapshot [scenarioSnap] = [scenarioAnalyzed] := by
    simp only [List.filterMap_cons, List.filterMap_nil, scenario_analyze]
  rw [hfm]
  simp [List.insertionSort, List.orderedInsert, scenario_render]

/-- C2 (counterexample to the claim as stated): on the scenario input the
upload-time cell of the single row is `"1.0 minute"` (singular), not the
claimed `"1.0 minutes"`. -/
theorem claim_C2_counterexample :
    (sectionRows [scenarioSnap] "A").map Row.data_upload_time = ["1.0 minute"] ∧
    ¬ (sectionRows [scenarioSnap] "A").map Row.data_upload_time = ["1.0 minutes"] := by
  rw [scenario_rows]
  exact ⟨rfl, by simp [scenarioRow]⟩

/-- C2 (amended): the scenario input yields exactly the cluster key `"A"`
and one table row with duration `"2.0 minutes"`, type `"Full"`, bytes
`"2.0 GB"`, upload time `"1.0 minute"` (singular, since the rounded value
is 1), and speed `"35.5 MB/s"`. -/
theorem claim_C2_amended :
    sortedClusterKeys [scenarioSnap] = ["A"] ∧
    sectionRows [scenarioSnap] "A" =
      [{ duration := "2.0 minutes"
         backup_type := "Full"
         num_new_bytes := "2.0 GB"
         data_upload_time := "1.0 minute"
         transfer_speed := "35.5 MB/s"
         snapshot_id := "N/A" }] :=
  ⟨scenario_keys, by rw [scenario_rows]; rfl⟩

/-- C4: for every snapshot the analyzer accepts, the reported transfer
speed is computed from the arithmetic mean of exactly the strictly
positive `transferSpeed` values of its metadata entries (zero, negative or
absent speeds contribute neither to the sum nor to the count), and when no
entry has a strictly positive speed the value is undefined and the cell
renders `"N/A"`. -/
theorem claim_C4 (s : Snapshot) (a : AnalyzedSnapshot)
    (h : analyze_snapshot s = some a) :
    (posSpeeds s.snapshotsMetadata = [] →
      a.transfer_speed = none ∧ (renderRow a).transfer_speed = "N/A") ∧
    (posSpeeds s.snapshotsMetadata ≠ [] →
      a.transfer_speed =
        format_speed (some ((posSpeeds s.snapshotsMetadata).sum /
          ((posSpeeds s.snapshotsMetadata).length : ℚ)))) := by
  simp only [analyze_snapshot] at h
  by_cases h1 : s.state ≠ some "COMPLETE"
  · rw [if_pos h1] at h; cases h
  rw [if_neg h1] at h
  by_cases h2 : s.snapshotsMetadata = []
  · rw [if_pos h2] at h; cases h
  rw [if_neg h2] at h
  by_cases h3 : (s.snapshotsMetadata.foldl stepRS initAgg).all_complete = false
  · rw [if_pos h3] at h; cases h
  rw [if_neg h3] at h
  by_cases h4 : (s.snapshotsMetadata.foldl stepRS initAgg).has_metrics = false ∧
      s.totalDuration = none
  · rw [if_pos h4] at h; cases h
  rw [if_neg h4] at h
  have hcomp : (s.snapshotsMetadata.foldl stepRS initAgg).all_complete = true := by
    revert h3
    cases (s.snapshotsMetadata.foldl stepRS initAgg).all_complete <;> simp
  have hall : ∀ rs ∈ s.snapshotsMetadata, rs.state = some "COMPLETE" :=
    ((foldl_all_complete s.snapshotsMetadata initAgg).mp hcomp).2
  have hps : posSpeedsC s.snapshotsMetadata = posSpeeds s.snapshotsMetadata :=
    posSpeedsC_eq_posSpeeds _ hall
  have hsum : (s.snapshotsMetadata.foldl stepRS initAgg).total_transfer_speed_sum
      = (posSpeeds s.snapshotsMetadata).sum := by
    rw [foldl_speed_sum, hps]
    simp [initAgg]
  have hcnt : (s.snapshotsMetadata.foldl stepRS initAgg).transfer_speed_count
      = (posSpeeds s.snapshotsMetadata).length := by
    rw [foldl_speed_count, hps]
    simp [initAgg]
  obtain rfl : a = _ := (Option.some.inj h).symm
  constructor
  · intro hempty
    have hc0 : (s.snapshotsMetadata.foldl stepRS initAgg).transfer_speed_count = 0 := by
      rw [hcnt, hempty]
      rfl
    constructor
    · dsimp only
      simp [hc0, format_speed]
    · dsimp only [renderRow]
      simp [hc0, format_speed]
  · intro hne
    have hpos : 0 < (posSpeeds s.snapshotsMetadata).length := List.length_pos.mpr hne
    dsimp only
    rw [hcnt, hsum, if_pos hpos]

/-- Witness for C4: instance at the concrete scenario snapshot, whose
analysis is `scenarioAnalyzed`. -/
theorem claim_C4_witness :
    (posSpeeds scenarioSnap.snapshotsMetadata = [] →
      scenarioAnalyzed.transfer_speed = none ∧
      (renderRow scenarioAnalyzed).transfer_speed = "N/A") ∧
    (posSpeeds scenarioSnap.snapshotsMetadata ≠ [] →
      scenarioAnalyzed.transfer_speed =
        format_speed (some ((posSpeeds scenarioSnap.snapshotsMetadata).sum /
          ((posSpeeds scenarioSnap.snapshotsMetadata).length : ℚ)))) :=
  claim_C4 scenarioSnap scenarioAnalyzed scenario_analyze
